import Mathlib

/-!
Shallow embedding of the `common-js` repository: the expiring key-value
cache `SimpleCache` (backed by `window.localStorage` and JSON
serialization) and the fetch-or-cache orchestrator
`AngularOneDataFetcher`, together with theorems settling the spec claims.

JavaScript values are modelled by the inductive `Jval`; the text layer of
`localStorage` is modelled by `RawCell`, which distinguishes a cell
holding `JSON.stringify v` from a cell holding text that `JSON.parse`
rejects. `Date.now()` is passed explicitly as an integer millisecond
timestamp, and promise-based control flow is evaluated to an explicit
outcome (`resolved` / `rejected` / `pending` / `threw`).
-/

set_option autoImplicit false

/-- A JSON-expressible JavaScript value. Objects are ordered field lists;
property lookup takes the first match. Numbers are modelled as integers
(every timestamp and TTL in this code is integral). -/
inductive Jval where
  | null
  | bool (b : Bool)
  | num (n : Int)
  | str (s : String)
  | arr (elems : List Jval)
  | obj (fields : List (String × Jval))

/-- JavaScript truthiness of a value. -/
def truthy : Jval → Bool
  | .null => false
  | .bool b => b
  | .num n => n != 0
  | .str s => !s.isEmpty
  | .arr _ => true
  | .obj _ => true

/-- Property access `v[name]`: `none` models JavaScript `undefined`
(missing property, or property access on a non-object). -/
def getProp : Jval → String → Option Jval
  | .obj fields, name => fields.lookup name
  | _, _ => none

/-- Truthiness of a possibly-`undefined` value (`undefined` is falsy). -/
def truthyOpt : Option Jval → Bool
  | none => false
  | some v => truthy v

/-- `v.hasOwnProperty(name)` for the values this code stores. -/
def hasOwn (v : Jval) (name : String) : Bool :=
  (getProp v name).isSome

/-- JavaScript `ToNumber` on a possibly-`undefined` value; `none` models
`NaN`. `ToPrimitive` on arrays and objects is not modelled (the cache
only ever compares numeric `expires` fields). -/
def toNumber : Option Jval → Option Int
  | none => none
  | some .null => some 0
  | some (.bool b) => some (if b then 1 else 0)
  | some (.num n) => some n
  | some (.str s) => if s.trim.isEmpty then some 0 else s.trim.toInt?
  | some (.arr _) => none
  | some (.obj _) => none

/-- The comparison `x <= m` for a number `m`: coerce `x` to a number;
every comparison against `NaN` is false. -/
def jsLeNum (x : Option Jval) (m : Int) : Bool :=
  match toNumber x with
  | some n => decide (n ≤ m)
  | none => false

/-- One `localStorage` cell, viewed through `JSON`: `serialized v` is the
text `JSON.stringify v` (injective on `Jval`), and `malformed s` is any
other text, which `JSON.parse` rejects with a `SyntaxError`. -/
inductive RawCell where
  | serialized (v : Jval)
  | malformed (s : String)

/-- `window.localStorage` as an association list; the first binding for a
key is its current value. -/
abbrev LocalStorage := List (String × RawCell)

/-- `window.localStorage[key]`: `none` models `undefined` (no cell). -/
def lsGet (store : LocalStorage) (key : String) : Option RawCell :=
  store.lookup key

/-- `window.localStorage[key] = cell`. -/
def lsSet (store : LocalStorage) (key : String) (cell : RawCell) : LocalStorage :=
  (key, cell) :: store

/-- `JSON.parse` applied to a cell read from `localStorage`: a missing
cell reads as `undefined`, which stringifies to the unparseable text
`"undefined"`, so parsing throws; malformed text throws; otherwise the
stringified value is recovered. `Except.error ()` models the thrown
`SyntaxError`. -/
def jsonParse : Option RawCell → Except Unit Jval
  | none => .error ()
  | some (.malformed _) => .error ()
  | some (.serialized v) => .ok v

namespace SimpleCache

/-- `SimpleCache._isExpired(dataFromCache)` at time `now`: a falsy value
is expired; otherwise expired iff it has an own `expires` property with
`expires <= Date.now()`. -/
def isExpired (dataFromCache : Jval) (now : Int) : Bool :=
  if !truthy dataFromCache then
    true
  else
    hasOwn dataFromCache "expires" && jsLeNum (getProp dataFromCache "expires") now

/-- `SimpleCache._applyExpirationDate(valueToCache, cacheMinutes)` at time
`now`: a value that already carries a truthy `expires` property is
returned unchanged; otherwise it is wrapped with
`expires = Date.now() + 60000 * cacheMinutes`. -/
def applyExpirationDate (valueToCache : Jval) (cacheMinutes now : Int) : Jval :=
  if truthy valueToCache && truthyOpt (getProp valueToCache "expires") then
    valueToCache
  else
    .obj [("expires", .num (now + 60000 * cacheMinutes)), ("value", valueToCache)]

/-- `SimpleCache.get(key)` at time `now`. `JSON.parse` of a missing or
malformed cell throws (nothing catches it); a falsy or expired parsed
value degrades to `null`; otherwise `data.value` is returned. In the
result, `.ok (some v)` is a returned value (possibly `Jval.null`) and
`.ok none` is a returned `undefined`. -/
def get (store : LocalStorage) (key : String) (now : Int) :
    Except Unit (Option Jval) :=
  match jsonParse (lsGet store key) with
  | .error () => .error ()
  | .ok parsed =>
    let data := if !truthy parsed || isExpired parsed now then Jval.null else parsed
    .ok (if truthy data then getProp data "value" else some data)

/-- `SimpleCache.set(key, value, cacheMinutes)` at time `now`, on a cache
constructed with `defaultCacheMinutes`. A `none` third argument models
the `null` default, in which case the code uses
`24 * parseInt(this.defaultCacheMinutes, 10)` minutes. -/
def set (store : LocalStorage) (key : String) (value : Jval)
    (cacheMinutes : Option Int) (defaultCacheMinutes : Int) (now : Int) :
    LocalStorage :=
  let mins :=
    match cacheMinutes with
    | none => 24 * defaultCacheMinutes
    | some m => m
  lsSet store key (.serialized (applyExpirationDate value mins now))

/-- `SimpleCache.forever(key, value)`: persists `{value: value}` with no
`expires` property. -/
def forever (store : LocalStorage) (key : String) (value : Jval) : LocalStorage :=
  lsSet store key (.serialized (.obj [("value", value)]))

/-- `SimpleCache.forget(key)`: assigns `null`, which `localStorage`
coerces to the text `"null"`, i.e. `JSON.stringify Jval.null`. -/
def forget (store : LocalStorage) (key : String) : LocalStorage :=
  lsSet store key (.serialized .null)

end SimpleCache

/-- Character classes used by the word splitter of the key normalizer. -/
inductive CharClass where
  | lower
  | upper
  | digit
  | other
  deriving DecidableEq

/-- Classify one character for word splitting. -/
def classify (c : Char) : CharClass :=
  if c.isLower then .lower
  else if c.isUpper then .upper
  else if c.isDigit then .digit
  else .other

/-- Whether a character of class `cur` continues a word whose previous
character has class `prev`: case runs and digit runs continue, and an
upper-case letter may be followed by lower-case letters (`Bar`). -/
def sameWord : CharClass → CharClass → Bool
  | .lower, .lower => true
  | .upper, .upper => true
  | .upper, .lower => true
  | .digit, .digit => true
  | _, _ => false

/-- One step of the word splitter: accumulated words (reversed), the
current word, and the class of the previous word character. -/
def snakeStep (st : List String × String × Option CharClass) (c : Char) :
    List String × String × Option CharClass :=
  let (ws, cur, prev) := st
  match classify c with
  | .other => (if cur.isEmpty then ws else cur :: ws, "", none)
  | cc =>
    match prev with
    | some p =>
      if sameWord p cc then (ws, cur.push c, some cc)
      else ((if cur.isEmpty then ws else cur :: ws), String.singleton c, some cc)
    | none => (ws, cur.push c, some cc)

/-- A model of lodash `_snakeCase` on strings: split into words at
non-alphanumeric characters, lower-to-upper case transitions and
letter/digit boundaries, lowercase the words and join them with `_`. -/
def snakeCaseStr (s : String) : String :=
  let (ws, cur, _) := s.toList.foldl snakeStep ([], "", none)
  let words := (if cur.isEmpty then ws else cur :: ws).reverse
  String.intercalate "_" (words.map String.toLower)

/-- Lodash `toString` of the value, as applied to a cache-key parameter
before snake-casing: `null` prints empty, arrays join their elements with
commas, plain objects print their object tag. -/
def jvalToString : Jval → String
  | .null => ""
  | .bool b => toString b
  | .num n => toString n
  | .str s => s
  | .arr elems => joinElems elems
  | .obj _ => "[object Object]"
where
  joinElems : List Jval → String
    | [] => ""
    | [x] => jvalToString x
    | x :: xs => jvalToString x ++ "," ++ joinElems xs

/-- `_snakeCase(param)` applied to a parameter value. -/
def snakeCaseJ (v : Jval) : String :=
  snakeCaseStr (jvalToString v)

/-- Lodash `_isEmpty`: `null`, booleans and numbers are empty; strings,
arrays and objects are empty iff they have no characters, elements or own
keys. -/
def jIsEmpty : Jval → Bool
  | .null => true
  | .bool _ => true
  | .num _ => true
  | .str s => s.isEmpty
  | .arr elems => elems.isEmpty
  | .obj fields => fields.isEmpty

/-- The synchronous cache-service collaborator injected into the
orchestrator (`CacheService`), reduced to the three operations the
orchestrator calls. Each operation may throw; `Except.error e` models a
thrown exception value. `set`'s third argument is the optional explicit
duration. State changes of the service are not tracked here: the claims
about the orchestrator constrain its control flow given the service's
responses. -/
structure CacheService where
  get : String → Except Jval Jval
  set : String → Jval → Option Int → Except Jval Unit
  forever : String → Jval → Except Jval Unit

/-- The orchestrator's `_cacheDuration` field: `dflt` is the initial
`null` (use the service's default), `never` is the `false` written by
`neverExpire()`, and `custom n` is the integer written by
`cacheDuration(hours)`. -/
inductive CacheDur where
  | dflt
  | never
  | custom (n : Int)

/-- An `AngularOneDataFetcher` instance: the fetching strategy (modelled
by the settled outcome of the promise it returns for given parameters),
the optional base key, the optional cache service, whether an
`$ionicLoading` indicator was provided, and the `_cacheDuration` state. -/
structure Fetcher where
  strategy : List Jval → Except Jval Jval
  key : Option String
  cacheService : Option CacheService
  hasLoading : Bool
  dur : CacheDur

/-- The settled state of a promise returned to the caller: `pending`
means the promise never settles, `threw e` means the call raised `e`
synchronously instead of returning a promise. -/
inductive POutcome where
  | resolved (v : Jval)
  | rejected (e : Jval)
  | pending
  | threw (e : Jval)

/-- Everything observable about one orchestrator call: the promise
outcome, whether the fetching strategy was invoked, and how often the
loading indicator's `show`/`hide` and the failure `alert` ran. -/
structure RunResult where
  outcome : POutcome
  fetchInvoked : Bool
  showCount : Nat
  hideCount : Nat
  alertCount : Nat

namespace AngularOneDataFetcher

/-- `_buildKey(...params)`: start from the base key and append
`'_' + _snakeCase(param)` for each parameter. (With at least one
parameter a `null` base key is coerced to the text `"null"`.) -/
def buildKey (key : Option String) (params : List Jval) : String :=
  params.foldl (fun acc p => acc ++ "_" ++ snakeCaseJ p) (key.getD "null")

/-- `_saveToCache(data, ...params)`: a no-op without a cache service;
otherwise write through `forever` when never-expire is set, through
two-argument `set` when no override is set, and through three-argument
`set` with the custom duration otherwise. -/
def saveToCache (f : Fetcher) (data : Jval) (params : List Jval) :
    Except Jval Unit :=
  match f.cacheService with
  | none => .ok ()
  | some svc =>
    let key := buildKey f.key params
    match f.dur with
    | .never => svc.forever key data
    | .dflt => svc.set key data none
    | .custom n => svc.set key data (some n)

/-- `_getFromCache(...params)`: returns `false` without a cache service,
otherwise reads the service at the built key (propagating anything the
read throws). -/
def getFromCache (f : Fetcher) (params : List Jval) : Except Jval Jval :=
  match f.cacheService with
  | none => .ok (.bool false)
  | some svc => svc.get (buildKey f.key params)

/-- The number of `show` (and matching `hide`) calls `_fetchFromOrigin`
performs: one when a loading indicator was provided, none otherwise. -/
def loadCount (f : Fetcher) : Nat :=
  if f.hasLoading then 1 else 0

/-- `refresh(...params)`: `_fetchFromOrigin` shows the indicator, runs
the strategy and hides the indicator on either outcome, alerting and
rejecting on failure; on success the `.then` callback saves to cache and
returns the data, so a throwing cache write rejects the returned promise
with the thrown value. -/
def refresh (f : Fetcher) (params : List Jval) : RunResult :=
  match f.strategy params with
  | .ok d =>
    match saveToCache f d params with
    | .ok _ => ⟨.resolved d, true, loadCount f, loadCount f, 0⟩
    | .error e => ⟨.rejected e, true, loadCount f, loadCount f, 0⟩
  | .error r => ⟨.rejected r, true, loadCount f, loadCount f, 1⟩

/-- `get(...params)`: inside the `$q` executor, read the cache (a throwing
read propagates out of `get`, since `$q` runs the executor unguarded);
resolve a truthy non-empty cached value immediately; otherwise fetch from
origin, then save and resolve on success (a throwing save happens before
`resolve`, so the outer promise never settles) and reject on failure. -/
def get (f : Fetcher) (params : List Jval) : RunResult :=
  match getFromCache f params with
  | .error e => ⟨.threw e, false, 0, 0, 0⟩
  | .ok data =>
    if truthy data && !jIsEmpty data then
      ⟨.resolved data, false, 0, 0, 0⟩
    else
      match f.strategy params with
      | .ok d =>
        match saveToCache f d params with
        | .ok _ => ⟨.resolved d, true, loadCount f, loadCount f, 0⟩
        | .error _ => ⟨.pending, true, loadCount f, loadCount f, 0⟩
      | .error r => ⟨.rejected r, true, loadCount f, loadCount f, 1⟩

end AngularOneDataFetcher

/-- A cache service that reads a permanent miss (`null`) and throws
`"QuotaExceeded"` on every write. -/
def badWriteService : CacheService where
  get := fun _ => .ok .null
  set := fun _ _ _ => .error (.str "QuotaExceeded")
  forever := fun _ _ => .error (.str "QuotaExceeded")

/-- A fetcher whose strategy succeeds with `42` but whose cache service
throws on every write. -/
def badWriteFetcher : Fetcher where
  strategy := fun _ => .ok (.num 42)
  key := some "users"
  cacheService := some badWriteService
  hasLoading := false
  dur := .dflt

/-- A cache service holding `{id: 42}` under every key. -/
def hitService : CacheService where
  get := fun _ => .ok (.obj [("id", .num 42)])
  set := fun _ _ _ => .ok ()
  forever := fun _ _ => .ok ()

/-- A fetcher bound to `hitService` whose strategy would reject if it
were ever invoked. -/
def hitFetcher : Fetcher where
  strategy := fun _ => .error (.str "fetch should not run")
  key := some "users"
  cacheService := some hitService
  hasLoading := true
  dur := .dflt

/-- A cache service holding the empty object under every key. -/
def emptyHitService : CacheService where
  get := fun _ => .ok (.obj [])
  set := fun _ _ _ => .ok ()
  forever := fun _ _ => .ok ()

/-- A fetcher bound to `emptyHitService` whose strategy succeeds with
`{id: 42}`. -/
def emptyHitFetcher : Fetcher where
  strategy := fun _ => .ok (.obj [("id", .num 42)])
  key := some "users"
  cacheService := some emptyHitService
  hasLoading := false
  dur := .dflt

/-- A cache service that always misses (reads `null`). -/
def missService : CacheService where
  get := fun _ => .ok .null
  set := fun _ _ _ => .ok ()
  forever := fun _ _ => .ok ()

/-- A fetcher bound to `missService` whose strategy rejects with
`"network error"`, with a loading indicator attached. -/
def netErrFetcher : Fetcher where
  strategy := fun _ => .error (.str "network error")
  key := some "users"
  cacheService := some missService
  hasLoading := true
  dur := .dflt

/-- A cache service holding the primitive `42` under every key. -/
def primService : CacheService where
  get := fun _ => .ok (.num 42)
  set := fun _ _ _ => .ok ()
  forever := fun _ _ => .ok ()

/-- A fetcher bound to `primService` whose strategy succeeds with
`{id: 1}`. -/
def primFetcher : Fetcher where
  strategy := fun _ => .ok (.obj [("id", .num 1)])
  key := some "users"
  cacheService := some primService
  hasLoading := false
  dur := .dflt

/-- Helper: `get` always performs exactly as many `hide` as `show` calls
on the loading indicator, on every control path. -/
theorem get_hide_eq_show (g : Fetcher) (ps : List Jval) :
    (AngularOneDataFetcher.get g ps).hideCount =
      (AngularOneDataFetcher.get g ps).showCount := by
  unfold AngularOneDataFetcher.get
  cases AngularOneDataFetcher.getFromCache g ps with
  | error e => rfl
  | ok data =>
    dsimp only
    split
    · rfl
    · split
      · split <;> rfl
      · rfl

/-- Helper: `refresh` always performs exactly as many `hide` as `show`
calls on the loading indicator, on every control path. -/
theorem refresh_hide_eq_show (g : Fetcher) (ps : List Jval) :
    (AngularOneDataFetcher.refresh g ps).hideCount =
      (AngularOneDataFetcher.refresh g ps).showCount := by
  unfold AngularOneDataFetcher.refresh
  split
  · split <;> rfl
  · rfl

/-- C1 counterexample: on a store with default TTL 1 minute, `set("k", "x")`
at time 0 persists `expires = 1440000`, not `0 + 1 * 60000` as the claim
states — the code multiplies the stored default by 24. -/
theorem default_ttl_claim_counterexample :
    lsGet (SimpleCache.set [] "k" (.str "x") none 1 0) "k" =
      some (.serialized (.obj [("expires", .num 1440000), ("value", .str "x")]))
    ∧ (1440000 : Int) ≠ 0 + 1 * 60000 := by
  exact ⟨rfl, by decide⟩

/-- C1 (amended): `set(k, v)` with no per-call TTL on a store constructed
with default `d` persists an entry with
`expires = now + 60000 * (24 * d)` whenever `v` is not already shaped
like a wrapped entry (no truthy `expires` property). -/
theorem set_default_ttl_24x (store : LocalStorage) (k : String) (v : Jval)
    (d now : Int)
    (hw : (truthy v && truthyOpt (getProp v "expires")) = false) :
    lsGet (SimpleCache.set store k v none d now) k =
      some (.serialized
        (.obj [("expires", .num (now + 60000 * (24 * d))), ("value", v)])) := by
  simp [SimpleCache.set, SimpleCache.applyExpirationDate, lsSet, lsGet,
    List.lookup, hw]

/-- C1 witness: the amended statement evaluated at a concrete input. -/
theorem set_default_ttl_24x_witness :
    (truthy (.str "x") && truthyOpt (getProp (.str "x") "expires")) = false
    ∧ lsGet (SimpleCache.set [] "k" (.str "x") none 1 0) "k" =
        some (.serialized
          (.obj [("expires", .num (0 + 60000 * (24 * 1))), ("value", .str "x")])) :=
  ⟨rfl, set_default_ttl_24x [] "k" (.str "x") 1 0 rfl⟩

/-- C2 counterexample: with no entry stored for `"k"`, and with malformed
text stored for `"k"`, `get("k")` raises (`JSON.parse` throws and nothing
catches it) instead of returning `Absent`. -/
theorem get_absent_raises_counterexample :
    SimpleCache.get [] "k" 0 = .error ()
    ∧ SimpleCache.get [("k", .malformed "not json")] "k" 0 = .error () :=
  ⟨rfl, rfl⟩

/-- C2 (amended): `get` degrades to `Absent` (`null`) only for entries
that parse: a parsed falsy value or a parsed expired entry reads as
`null`; but when no entry exists for the key, or the stored text fails to
parse, the `JSON.parse` exception propagates to the caller. -/
theorem get_raise_or_degrade (store : LocalStorage) (k : String) (now : Int)
    (d : Jval) :
    (lsGet store k = none → SimpleCache.get store k now = .error ())
    ∧ (∀ s, lsGet store k = some (.malformed s) →
        SimpleCache.get store k now = .error ())
    ∧ (lsGet store k = some (.serialized d) → SimpleCache.isExpired d now = true →
        SimpleCache.get store k now = .ok (some Jval.null)) := by
  refine ⟨fun h => ?_, fun s h => ?_, fun h hexp => ?_⟩
  · unfold SimpleCache.get
    rw [h]
    rfl
  · unfold SimpleCache.get
    rw [h]
    rfl
  · unfold SimpleCache.get
    rw [h]
    simp [jsonParse, hexp, truthy]

/-- C2 witness: the amended statement evaluated at concrete inputs — an
absent key raises, malformed text raises, and an expired parsed entry
reads as `null`. -/
theorem get_raise_or_degrade_witness :
    SimpleCache.get [] "k" 7 = .error ()
    ∧ SimpleCache.get [("k", .malformed "oops")] "k" 7 = .error ()
    ∧ SimpleCache.get
        [("k", .serialized (.obj [("expires", .num 5), ("value", .num 1)]))]
        "k" 7 = .ok (some Jval.null) :=
  ⟨(get_raise_or_degrade [] "k" 7 .null).1 rfl,
   (get_raise_or_degrade [("k", .malformed "oops")] "k" 7 .null).2.1 "oops" rfl,
   (get_raise_or_degrade
      [("k", .serialized (.obj [("expires", .num 5), ("value", .num 1)]))]
      "k" 7 (.obj [("expires", .num 5), ("value", .num 1)])).2.2 rfl rfl⟩

/-- C4: an entry carrying a numeric `expires` timestamp is expired iff
the current time is `>=` that timestamp (so `expires = now` is expired
and `expires = now + 1` is not), and an expired entry reads as absent
(`null`) through `get`. -/
theorem isExpired_strict_ge (fields : List (String × Jval)) (t now : Int)
    (store : LocalStorage) (k : String)
    (h : getProp (.obj fields) "expires" = some (.num t)) :
    ((SimpleCache.isExpired (.obj fields) now = true) ↔ now ≥ t)
    ∧ (SimpleCache.isExpired (.obj fields) t = true)
    ∧ (SimpleCache.isExpired (.obj fields) (t - 1) = false)
    ∧ (now ≥ t → lsGet store k = some (.serialized (.obj fields)) →
        SimpleCache.get store k now = .ok (some Jval.null)) := by
  have hexp : ∀ m : Int, SimpleCache.isExpired (.obj fields) m = decide (t ≤ m) := by
    intro m
    simp [SimpleCache.isExpired, truthy, hasOwn, h, jsLeNum, toNumber]
  refine ⟨?_, ?_, ?_, fun hge hst => ?_⟩
  · rw [hexp now]
    exact ⟨fun hd => of_decide_eq_true hd, fun hd => decide_eq_true hd⟩
  · rw [hexp t]
    simp
  · rw [hexp (t - 1)]
    simp
  · unfold SimpleCache.get
    rw [hst]
    simp [jsonParse, hexp now, hge, truthy]

/-- C4 witness: the statement evaluated at a concrete entry with
`expires = 5`, read at times 5 and 4. -/
theorem isExpired_strict_ge_witness :
    getProp (.obj [("expires", .num 5), ("value", .num 1)]) "expires" =
      some (.num 5)
    ∧ ((SimpleCache.isExpired (.obj [("expires", .num 5), ("value", .num 1)]) 5
          = true) ↔ (5 : Int) ≥ 5)
    ∧ SimpleCache.get
        [("k", .serialized (.obj [("expires", .num 5), ("value", .num 1)]))]
        "k" 5 = .ok (some Jval.null) :=
  ⟨rfl,
   (isExpired_strict_ge [("expires", .num 5), ("value", .num 1)] 5 5
      [("k", .serialized (.obj [("expires", .num 5), ("value", .num 1)]))]
      "k" rfl).1,
   (isExpired_strict_ge [("expires", .num 5), ("value", .num 1)] 5 5
      [("k", .serialized (.obj [("expires", .num 5), ("value", .num 1)]))]
      "k" rfl).2.2.2 (by decide) rfl⟩

/-- C5 counterexample: storing the value `{expires: 99, value: 7}` with
explicit TTL 1 at time 0 and reading it back at time 0 yields `7`, not
the stored value itself — `set` persists a value that already carries a
truthy `expires` property unchanged, and `get` then unwraps its `value`
field. -/
theorem roundtrip_counterexample :
    SimpleCache.get
      (SimpleCache.set [] "k" (.obj [("expires", .num 99), ("value", .num 7)])
        (some 1) 1 0)
      "k" 0 = .ok (some (.num 7))
    ∧ Jval.num 7 ≠ Jval.obj [("expires", .num 99), ("value", .num 7)] :=
  ⟨rfl, fun h => Jval.noConfusion h⟩

/-- C5 (amended): for every value `v` that is not already shaped like a
wrapped entry (no truthy `expires` property) and explicit TTL `t > 0`,
reading `get(k)` after `set(k, v, t)` at any time before the TTL has
elapsed returns `v`. -/
theorem set_get_roundtrip (store : LocalStorage) (k : String) (v : Jval)
    (t dflt now now2 : Int)
    (hw : (truthy v && truthyOpt (getProp v "expires")) = false)
    (ht : 0 < t) (hnow : now2 < now + 60000 * t) :
    SimpleCache.get (SimpleCache.set store k v (some t) dflt now) k now2 =
      .ok (some v) := by
  have hstore :
      lsGet (SimpleCache.set store k v (some t) dflt now) k =
        some (.serialized
          (.obj [("expires", .num (now + 60000 * t)), ("value", v)])) := by
    simp [SimpleCache.set, SimpleCache.applyExpirationDate, lsSet, lsGet,
      List.lookup, hw]
  have hlive :
      SimpleCache.isExpired
        (.obj [("expires", .num (now + 60000 * t)), ("value", v)]) now2 = false := by
    simp [SimpleCache.isExpired, truthy, hasOwn, getProp, jsLeNum, toNumber,
      List.lookup]
    omega
  unfold SimpleCache.get
  rw [hstore]
  simp [jsonParse, hlive, truthy, getProp, List.lookup]

/-- C5 witness: the amended statement evaluated at a concrete input. -/
theorem set_get_roundtrip_witness :
    (truthy (.str "x") && truthyOpt (getProp (.str "x") "expires")) = false
    ∧ (0 : Int) < 1 ∧ (0 : Int) < 0 + 60000 * 1
    ∧ SimpleCache.get (SimpleCache.set [] "k" (.str "x") (some 1) 9 0) "k" 0 =
        .ok (some (.str "x")) :=
  ⟨rfl, by decide, by decide,
   set_get_roundtrip [] "k" (.str "x") 1 9 0 0 rfl (by decide) (by decide)⟩

/-- C6: `forever(k, v)` persists `{value: v}` with no `expires` property,
and `get(k)` on the resulting store returns `v` at every time `now`. -/
theorem forever_never_expires (store : LocalStorage) (k : String) (v : Jval)
    (now : Int) :
    lsGet (SimpleCache.forever store k v) k =
      some (.serialized (.obj [("value", v)]))
    ∧ hasOwn (.obj [("value", v)]) "expires" = false
    ∧ SimpleCache.get (SimpleCache.forever store k v) k now = .ok (some v) := by
  have hstore : lsGet (SimpleCache.forever store k v) k =
      some (.serialized (.obj [("value", v)])) := by
    simp [SimpleCache.forever, lsSet, lsGet, List.lookup]
  refine ⟨hstore, by simp [hasOwn, getProp, List.lookup], ?_⟩
  unfold SimpleCache.get
  rw [hstore]
  simp [jsonParse, SimpleCache.isExpired, truthy, hasOwn, getProp, List.lookup]

/-- C3 counterexample: with a strategy that succeeds with `42` and a
cache service whose `set` throws `"QuotaExceeded"`, `refresh` rejects
with the thrown value and `get` never settles — neither resolves with the
fetched data, so the cache write is not isolated from the return value. -/
theorem write_failure_counterexample :
    (AngularOneDataFetcher.refresh badWriteFetcher []).outcome =
      .rejected (.str "QuotaExceeded")
    ∧ (AngularOneDataFetcher.refresh badWriteFetcher []).outcome ≠
        .resolved (.num 42)
    ∧ (AngularOneDataFetcher.get badWriteFetcher []).outcome = .pending
    ∧ (AngularOneDataFetcher.get badWriteFetcher []).outcome ≠
        .resolved (.num 42) :=
  ⟨rfl, fun h => POutcome.noConfusion h, rfl, fun h => POutcome.noConfusion h⟩

/-- C3 (amended): when the fetch succeeds with `d`, the fetched data is
returned only if the cache write succeeds: a throwing write makes
`refresh` reject with the thrown value and leaves `get` (on a cache miss)
pending forever, while a successful write lets `refresh` resolve with
`d`. -/
theorem write_failure_rejects_or_hangs (f : Fetcher) (params : List Jval)
    (d : Jval) (hs : f.strategy params = .ok d) :
    (∀ e, AngularOneDataFetcher.saveToCache f d params = .error e →
        (AngularOneDataFetcher.refresh f params).outcome = .rejected e
        ∧ (AngularOneDataFetcher.getFromCache f params = .ok Jval.null →
            (AngularOneDataFetcher.get f params).outcome = .pending))
    ∧ (AngularOneDataFetcher.saveToCache f d params = .ok () →
        (AngularOneDataFetcher.refresh f params).outcome = .resolved d) := by
  constructor
  · intro e hsv
    constructor
    · unfold AngularOneDataFetcher.refresh
      rw [hs]
      dsimp only
      rw [hsv]
    · intro hmiss
      unfold AngularOneDataFetcher.get
      rw [hmiss]
      simp [truthy, jIsEmpty, hs, hsv]
  · intro hsv
    unfold AngularOneDataFetcher.refresh
    rw [hs]
    dsimp only
    rw [hsv]

/-- C3 witness: the amended statement evaluated on `badWriteFetcher`. -/
theorem write_failure_rejects_or_hangs_witness :
    (AngularOneDataFetcher.refresh badWriteFetcher []).outcome =
      .rejected (.str "QuotaExceeded")
    ∧ (AngularOneDataFetcher.get badWriteFetcher []).outcome = .pending :=
  ⟨((write_failure_rejects_or_hangs badWriteFetcher [] (.num 42) rfl).1
      (.str "QuotaExceeded") rfl).1,
   ((write_failure_rejects_or_hangs badWriteFetcher [] (.num 42) rfl).1
      (.str "QuotaExceeded") rfl).2 rfl⟩

/-- C7: when the configured service holds a truthy, non-empty value under
the composite key, `get` (the spec's `getOrFetch`) resolves with the
cached value, never invokes the fetching strategy, and never shows the
progress indicator. -/
theorem getOrFetch_cache_hit (f : Fetcher) (params : List Jval)
    (svc : CacheService) (v : Jval)
    (hsvc : f.cacheService = some svc)
    (hget : svc.get (AngularOneDataFetcher.buildKey f.key params) = .ok v)
    (ht : truthy v = true) (he : jIsEmpty v = false) :
    AngularOneDataFetcher.get f params = ⟨.resolved v, false, 0, 0, 0⟩ := by
  unfold AngularOneDataFetcher.get AngularOneDataFetcher.getFromCache
  rw [hsvc]
  dsimp only
  rw [hget]
  simp [ht, he]

/-- C7 witness: a cache pre-populated with `{id: 42}` produces a hit
without fetching or showing progress. -/
theorem getOrFetch_cache_hit_witness :
    hitFetcher.cacheService = some hitService
    ∧ hitService.get (AngularOneDataFetcher.buildKey hitFetcher.key [.num 42]) =
        .ok (.obj [("id", .num 42)])
    ∧ AngularOneDataFetcher.get hitFetcher [.num 42] =
        ⟨.resolved (.obj [("id", .num 42)]), false, 0, 0, 0⟩ :=
  ⟨rfl, rfl,
   getOrFetch_cache_hit hitFetcher [.num 42] hitService (.obj [("id", .num 42)])
     rfl rfl rfl rfl⟩

/-- C8: a cached empty object or empty array is treated as a miss: the
strategy is re-invoked, and (when it succeeds and the write succeeds) the
promise resolves with the fetched data, not the empty cached value. -/
theorem getOrFetch_empty_is_miss (f : Fetcher) (params : List Jval)
    (svc : CacheService) (v : Jval)
    (hsvc : f.cacheService = some svc)
    (hget : svc.get (AngularOneDataFetcher.buildKey f.key params) = .ok v)
    (hv : v = .obj [] ∨ v = .arr []) :
    (AngularOneDataFetcher.get f params).fetchInvoked = true
    ∧ (∀ d, f.strategy params = .ok d →
        AngularOneDataFetcher.saveToCache f d params = .ok () →
        (AngularOneDataFetcher.get f params).outcome = .resolved d) := by
  have hcond : (truthy v && !jIsEmpty v) = false := by
    rcases hv with hv | hv <;> subst hv <;> rfl
  constructor
  · unfold AngularOneDataFetcher.get AngularOneDataFetcher.getFromCache
    rw [hsvc]
    dsimp only
    rw [hget]
    simp only [hcond, Bool.false_eq_true, if_false]
    cases f.strategy params with
    | ok d =>
      dsimp only
      cases AngularOneDataFetcher.saveToCache f d params <;> rfl
    | error r => rfl
  · intro d hs hsv
    unfold AngularOneDataFetcher.get AngularOneDataFetcher.getFromCache
    rw [hsvc]
    dsimp only
    rw [hget]
    simp only [hcond, Bool.false_eq_true, if_false, hs, hsv]

/-- C8 witness: an empty object in the cache is bypassed and the fetched
`{id: 42}` is resolved instead. -/
theorem getOrFetch_empty_is_miss_witness :
    (AngularOneDataFetcher.get emptyHitFetcher []).fetchInvoked = true
    ∧ (AngularOneDataFetcher.get emptyHitFetcher []).outcome =
        .resolved (.obj [("id", .num 42)]) :=
  ⟨(getOrFetch_empty_is_miss emptyHitFetcher [] emptyHitService (.obj [])
      rfl rfl (Or.inl rfl)).1,
   (getOrFetch_empty_is_miss emptyHitFetcher [] emptyHitService (.obj [])
      rfl rfl (Or.inl rfl)).2 (.obj [("id", .num 42)]) rfl rfl⟩

/-- C9: when the strategy rejects with `e` on a cache miss, both `get`
(the spec's `getOrFetch`) and `refresh` (the spec's `fetch`) reject with
`e` and run the failure alert exactly once; and on every control path of
both operations the indicator's `hide` count equals its `show` count. -/
theorem fetch_failure_alerts_and_pairs (f : Fetcher) (params : List Jval)
    (svc : CacheService) (e : Jval)
    (hsvc : f.cacheService = some svc)
    (hmiss : svc.get (AngularOneDataFetcher.buildKey f.key params) = .ok Jval.null)
    (hs : f.strategy params = .error e) :
    (AngularOneDataFetcher.get f params).outcome = .rejected e
    ∧ (AngularOneDataFetcher.get f params).alertCount = 1
    ∧ (AngularOneDataFetcher.refresh f params).outcome = .rejected e
    ∧ (AngularOneDataFetcher.refresh f params).alertCount = 1
    ∧ (∀ (g : Fetcher) (ps : List Jval),
        (AngularOneDataFetcher.get g ps).hideCount =
          (AngularOneDataFetcher.get g ps).showCount
        ∧ (AngularOneDataFetcher.refresh g ps).hideCount =
            (AngularOneDataFetcher.refresh g ps).showCount) := by
  have hget : AngularOneDataFetcher.get f params =
      ⟨.rejected e, true, AngularOneDataFetcher.loadCount f,
        AngularOneDataFetcher.loadCount f, 1⟩ := by
    unfold AngularOneDataFetcher.get AngularOneDataFetcher.getFromCache
    rw [hsvc]
    dsimp only
    rw [hmiss]
    simp [truthy, hs]
  have href : AngularOneDataFetcher.refresh f params =
      ⟨.rejected e, true, AngularOneDataFetcher.loadCount f,
        AngularOneDataFetcher.loadCount f, 1⟩ := by
    unfold AngularOneDataFetcher.refresh
    rw [hs]
  exact ⟨by rw [hget], by rw [hget], by rw [href], by rw [href],
    fun g ps => ⟨get_hide_eq_show g ps, refresh_hide_eq_show g ps⟩⟩

/-- C9 witness: a `"network error"` rejection on a miss, with a loading
indicator attached: both calls reject, alert once, and show/hide pair. -/
theorem fetch_failure_alerts_and_pairs_witness :
    (AngularOneDataFetcher.get netErrFetcher []).outcome =
      .rejected (.str "network error")
    ∧ (AngularOneDataFetcher.get netErrFetcher []).alertCount = 1
    ∧ (AngularOneDataFetcher.refresh netErrFetcher []).outcome =
        .rejected (.str "network error")
    ∧ (AngularOneDataFetcher.get netErrFetcher []).hideCount =
        (AngularOneDataFetcher.get netErrFetcher []).showCount :=
  ⟨(fetch_failure_alerts_and_pairs netErrFetcher [] missService
      (.str "network error") rfl rfl rfl).1,
   (fetch_failure_alerts_and_pairs netErrFetcher [] missService
      (.str "network error") rfl rfl rfl).2.1,
   (fetch_failure_alerts_and_pairs netErrFetcher [] missService
      (.str "network error") rfl rfl rfl).2.2.1,
   ((fetch_failure_alerts_and_pairs netErrFetcher [] missService
      (.str "network error") rfl rfl rfl).2.2.2.2 netErrFetcher []).1⟩

/-- C10 (implicit): a cached non-collection primitive — `null`, any
boolean or any number, including truthy values such as `42` — is
classified empty by the lodash emptiness check, so `get` (the spec's
`getOrFetch`) always treats it as a miss and re-invokes the strategy. -/
theorem cached_primitive_always_miss (f : Fetcher) (params : List Jval)
    (svc : CacheService) (v : Jval)
    (hsvc : f.cacheService = some svc)
    (hget : svc.get (AngularOneDataFetcher.buildKey f.key params) = .ok v)
    (hp : v = .null ∨ (∃ b, v = .bool b) ∨ (∃ n, v = .num n)) :
    jIsEmpty v = true
    ∧ (AngularOneDataFetcher.get f params).fetchInvoked = true := by
  have hemp : jIsEmpty v = true := by
    rcases hp with hv | ⟨b, hv⟩ | ⟨n, hv⟩ <;> subst hv <;> rfl
  have hcond : (truthy v && !jIsEmpty v) = false := by
    rw [hemp]
    simp
  refine ⟨hemp, ?_⟩
  unfold AngularOneDataFetcher.get AngularOneDataFetcher.getFromCache
  rw [hsvc]
  dsimp only
  rw [hget]
  simp only [hcond, Bool.false_eq_true, if_false]
  cases f.strategy params with
  | ok d =>
    dsimp only
    cases AngularOneDataFetcher.saveToCache f d params <;> rfl
  | error r => rfl

/-- C10 witness: a cached truthy primitive `42` is a miss and the
strategy runs. -/
theorem cached_primitive_always_miss_witness :
    jIsEmpty (.num 42) = true
    ∧ (AngularOneDataFetcher.get primFetcher []).fetchInvoked = true :=
  ⟨(cached_primitive_always_miss primFetcher [] primService (.num 42)
      rfl rfl (Or.inr (Or.inr ⟨42, rfl⟩))).1,
   (cached_primitive_always_miss primFetcher [] primService (.num 42)
      rfl rfl (Or.inr (Or.inr ⟨42, rfl⟩))).2⟩
